import Mathlib

/-!
Verification development for the o11y observability library.

This file shallowly embeds the core logic of the repository:
  * `Run` (run.go): the operation wrapper composing span lifecycle, logger
    enrichment, panic recovery and duration/error metrics around a callback.
  * the metric registry (metric_registry.go): copy-on-write registration and
    best-effort, type-checked recording with an in-process running total.
  * `State.SetBaggage` (o11y.go): fail-soft functional baggage update.
  * `Provider.New` (provider.go): ordered startup with rollback on failure.

Wall-clock time, the external OpenTelemetry/zerolog SDK internals and OS I/O
are abstracted: an instrument handle is the (description, unit) pair it was
created with, log/backend calls become trace events, and durations are not
measured (only the fact that a histogram sample is recorded is modelled).
-/

/-- Go error values. Errors in the modelled code are compared by identity of
the value; a model error is its message string plus a tag allowing distinct
error values with equal messages (as distinct Go error instances can have
equal messages). -/
structure Err where
  tag : Nat
  msg : String
deriving DecidableEq, Repr

/-- OpenTelemetry span status codes (`codes.Ok`, `codes.Error`, unset). -/
inductive StatusCode
  | unset
  | ok
  | error
deriving DecidableEq, Repr

/-- The behaviour of the user callback `fn` passed to `Run`: it either
returns nil, returns a non-nil error, or panics with a value (modelled as the
string Go would format it to). -/
inductive FnOutcome
  | ok
  | fails (e : Err)
  | panics (v : String)
deriving DecidableEq, Repr

/-- The way a Go function call terminates: a normal return carrying the
(optional) error result, or an uncaught panic unwinding to the caller. -/
inductive GoResult
  | returns (e : Option Err)
  | panicked (v : String)
deriving DecidableEq, Repr

/-- Observable events of one `Run` invocation, in program order.  Deferred
actions (`defer` in run.go) appear at the position where they run, and the
moment each one is *installed* is itself an event so that scheduling order is
part of the trace. -/
inductive Event
  | spanStart (name : String)
  | spanEndDeferred
  | loggerDerived (name : String)
  | panicGuardInstalled
  | durationDeferScheduled
  | fnInvoked
  | spanRecordError (e : Err) (withStackTrace : Bool)
  | spanSetStatus (c : StatusCode) (msg : String)
  | logError (msg : String)
  | counterAdd (metricName : String) (value : Int) (operation : String)
  | histogramRecord (metricName : String) (operation : String)
  | spanEnd
deriving DecidableEq, Repr

/-- The message `fmt.Errorf("panic recovered in o11y.Run: %v", r)` produces
in the panic guard of run.go. -/
def panicMessage (v : String) : String :=
  "panic recovered in o11y.Run: " ++ v

/-- The error value the panic guard builds from the recovered value.  The
tag 0 is arbitrary: it only matters that it is a definite non-nil error. -/
def panicErr (v : String) : Err :=
  ⟨0, panicMessage v⟩

/-- Shallow embedding of `Run` (run.go).  Go `defer`s run LIFO at function
exit; run.go installs, in order: `span.End`, the panic guard, and the
duration recorder.  Hence at exit the duration histogram records first, then
(on a panic) the guard recovers, and `span.End` always runs last.  On a
normal return the result handling (steps under "5. Result Handling") runs
before any deferred action.  The returned `GoResult` is the named return
value `err`; `.panicked` is never produced because the guard recovers every
panic. -/
def Run (name : String) (fn : FnOutcome) : GoResult × List Event :=
  let pre : List Event :=
    [Event.spanStart name,          -- Tracer.Start(ctx, name)
     Event.spanEndDeferred,         -- defer span.End()
     Event.loggerDerived name,      -- spanLogger := parentLogger.With()...
     Event.panicGuardInstalled,     -- defer func() { recover() ... }()
     Event.durationDeferScheduled,  -- startTime := time.Now(); defer func() {...}()
     Event.fnInvoked]               -- err = fn(ctxWithLogger, s)
  match fn with
  | .ok =>
      (.returns none,
       pre ++
       [Event.spanSetStatus .ok "success",
        Event.histogramRecord "biz.operation.duration" name,
        Event.spanEnd])
  | .fails e =>
      (.returns (some e),
       pre ++
       [Event.spanRecordError e false,
        Event.spanSetStatus .error e.msg,
        Event.counterAdd "biz.operation.error.total" 1 name,
        Event.histogramRecord "biz.operation.duration" name,
        Event.spanEnd])
  | .panics v =>
      -- fn panics: result handling is skipped; the deferred duration
      -- recorder runs first, then the panic guard recovers and converts,
      -- then span.End.
      (.returns (some (panicErr v)),
       pre ++
       [Event.histogramRecord "biz.operation.duration" name,
        Event.spanRecordError (panicErr v) true,
        Event.spanSetStatus .error "panic occurred",
        Event.logError ("Panic recovered during operation: " ++ v),
        Event.counterAdd "biz.operation.error.total" 1 name,
        Event.spanEnd])

/-- Is this event an increment of the standard operation-error counter? -/
def Event.isErrCounterAdd : Event → Bool
  | .counterAdd m v _ => m == "biz.operation.error.total" && v == 1
  | _ => false

/-- Is this event any counter increment at all? -/
def Event.isAnyCounterAdd : Event → Bool
  | .counterAdd _ _ _ => true
  | _ => false

/-- Is this event a sample of the standard operation-duration histogram? -/
def Event.isDurationRecord : Event → Bool
  | .histogramRecord m _ => m == "biz.operation.duration"
  | _ => false

def Event.isSpanStart : Event → Bool
  | .spanStart _ => true
  | _ => false

def Event.isLoggerDerived : Event → Bool
  | .loggerDerived _ => true
  | _ => false

def Event.isPanicGuardInstalled : Event → Bool
  | .panicGuardInstalled => true
  | _ => false

def Event.isDurationDeferScheduled : Event → Bool
  | .durationDeferScheduled => true
  | _ => false

def Event.isFnInvoked : Event → Bool
  | .fnInvoked => true
  | _ => false

def Event.isSpanEnd : Event → Bool
  | .spanEnd => true
  | _ => false

/-- C1: a panicking callback never propagates its panic out of `Run`; the
panic value is converted to a non-nil error that is returned, recorded on
the span (with stack trace), the span status is set to error, and the
operation-error counter is incremented exactly once. -/
theorem run_panic_recovered (name v : String) :
    (Run name (.panics v)).1 = .returns (some (panicErr v)) ∧
    (∀ w, (Run name (.panics v)).1 ≠ .panicked w) ∧
    Event.spanRecordError (panicErr v) true ∈ (Run name (.panics v)).2 ∧
    Event.spanSetStatus .error "panic occurred" ∈ (Run name (.panics v)).2 ∧
    ((Run name (.panics v)).2.countP Event.isErrCounterAdd) = 1 ∧
    Event.counterAdd "biz.operation.error.total" 1 name ∈ (Run name (.panics v)).2 := by
  refine ⟨rfl, fun w h => by simp [Run] at h, ?_, ?_, ?_, ?_⟩ <;>
    simp [Run, List.countP, List.countP.go, Event.isErrCounterAdd]

/-- Witness for C1: the spec scenario — a callback panicking with "oops"
does not re-panic and yields the converted error. -/
theorem run_panic_recovered_witness :
    (Run "op" (.panics "oops")).1 = .returns (some (panicErr "oops")) ∧
    (Run "op" (.panics "oops")).1 ≠ .panicked "oops" :=
  ⟨(run_panic_recovered "op" "oops").1,
   (run_panic_recovered "op" "oops").2.1 "oops"⟩

/-- C2: a callback returning a non-nil error `e` has `e` recorded on the
span, span status set to error with the message of `e`, the operation-error
counter incremented exactly once tagged with the operation name, and the
very same error value `e` returned, unwrapped. -/
theorem run_error_identity (name : String) (e : Err) :
    (Run name (.fails e)).1 = .returns (some e) ∧
    Event.spanRecordError e false ∈ (Run name (.fails e)).2 ∧
    Event.spanSetStatus .error e.msg ∈ (Run name (.fails e)).2 ∧
    ((Run name (.fails e)).2.countP Event.isErrCounterAdd) = 1 ∧
    Event.counterAdd "biz.operation.error.total" 1 name ∈ (Run name (.fails e)).2 := by
  refine ⟨rfl, ?_, ?_, ?_, ?_⟩ <;>
    simp [Run, List.countP, List.countP.go, Event.isErrCounterAdd]

/-- C3: a callback returning nil gives span status OK, exactly one
operation-duration histogram sample tagged with the operation name, no
counter increment of any kind (in particular no error counter and no
implicit success counter), and `Run` returns nil. -/
theorem run_success (name : String) :
    (Run name .ok).1 = .returns none ∧
    Event.spanSetStatus .ok "success" ∈ (Run name .ok).2 ∧
    ((Run name .ok).2.countP Event.isDurationRecord) = 1 ∧
    Event.histogramRecord "biz.operation.duration" name ∈ (Run name .ok).2 ∧
    ((Run name .ok).2.countP Event.isAnyCounterAdd) = 0 := by
  refine ⟨rfl, ?_, ?_, ?_, ?_⟩ <;>
    simp [Run, List.countP, List.countP.go, Event.isDurationRecord,
      Event.isAnyCounterAdd]

/-- C4: in every outcome the duration histogram is recorded exactly once,
and the trace of a `Run` invocation is strictly ordered: span start before
logger derivation, panic guard installed before `fn` runs, duration
recording scheduled before `fn` runs but the sample taken after `fn`
completes, and span end last (and exactly once). -/
theorem run_ordering (name : String) (fn : FnOutcome) :
    ((Run name fn).2.countP Event.isDurationRecord) = 1 ∧
    (Run name fn).2.findIdx Event.isSpanStart <
      (Run name fn).2.findIdx Event.isLoggerDerived ∧
    (Run name fn).2.findIdx Event.isPanicGuardInstalled <
      (Run name fn).2.findIdx Event.isFnInvoked ∧
    (Run name fn).2.findIdx Event.isDurationDeferScheduled <
      (Run name fn).2.findIdx Event.isFnInvoked ∧
    (Run name fn).2.findIdx Event.isFnInvoked <
      (Run name fn).2.findIdx Event.isDurationRecord ∧
    (Run name fn).2.getLast? = some Event.spanEnd ∧
    ((Run name fn).2.countP Event.isSpanEnd) = 1 := by
  cases fn <;>
    refine ⟨?_, ?_, ?_, ?_, ?_, ?_, ?_⟩ <;>
      simp [Run, List.countP, List.countP.go, List.findIdx, List.findIdx.go,
        Event.isDurationRecord, Event.isSpanStart, Event.isLoggerDerived,
        Event.isPanicGuardInstalled, Event.isDurationDeferScheduled,
        Event.isFnInvoked, Event.isSpanEnd]

/-! ## Metric registry (metric_registry.go) -/

/-- A created OpenTelemetry instrument, abstracted to the inputs the SDK
received when creating it (`metric.WithDescription`, `metric.WithUnit`). -/
structure InstrumentRef where
  description : String
  unit : String
deriving DecidableEq, Repr

/-- `MetricInstrument` (metric_registry.go): a struct holding one optional
handle per instrument kind; the populated field tags the kind. -/
structure MetricInstrument where
  int64Counter : Option InstrumentRef := none
  float64Histogram : Option InstrumentRef := none
  int64UpDownCounter : Option InstrumentRef := none
deriving DecidableEq, Repr

/-- The registry map abstraction: a Go `map[string]MetricInstrument` is its
lookup function. -/
def RegMap : Type := String → Option MetricInstrument

/-- The mutable package-level state of metric_registry.go: `registry` (an
`atomic.Value` that is `none` until first `Store`) and `localValues` (the
per-name running totals; a name absent from the xsync map reads as 0, so the
map is its total lookup function). -/
structure RegistryState where
  registry : Option RegMap
  localValues : String → Int

/-- Observable side effects of registry operations: calls into the metrics
backend and log statements. -/
inductive MetricEvent
  | backendCounterAdd (ref : InstrumentRef) (value : Int)
  | backendUpDownAdd (ref : InstrumentRef) (value : Int)
  | backendHistRecord (ref : InstrumentRef)
  | logDebugNotRegistered (name : String)
  | logWarnTypeMismatch (name : String)
  | logWarnOverwrite (name : String)
  | logErrorMeterNil
deriving DecidableEq, Repr

/-- `getRegistryMap`: a nil `atomic.Value` reads as a nil map. -/
def getRegistryMap (st : RegistryState) : Option RegMap :=
  st.registry

/-- Lookup in the current snapshot, with Go nil-map lookup semantics (a nil
map yields no entry for every key). -/
def regLookup (st : RegistryState) (name : String) : Option MetricInstrument :=
  match st.registry with
  | none => none
  | some m => m name

/-- `register` (metric_registry.go): copy-on-write under `registryMu`: copy
the old snapshot, warn if the name is already present, install the new
instrument under the name, and publish the new snapshot.  The old snapshot
value is never modified (the model is functional, exactly as the code never
writes to the old map). -/
def register (st : RegistryState) (name : String) (inst : MetricInstrument) :
    RegistryState × List MetricEvent :=
  let oldMap : RegMap :=
    match getRegistryMap st with
    | none => fun _ => none
    | some m => m
  let alreadyThere : Bool := (oldMap name).isSome
  let newMap : RegMap := fun k => if k = name then some inst else oldMap k
  ({ st with registry := some newMap },
   if alreadyThere then [.logWarnOverwrite name] else [])

/-- `addToIntCounterImpl`: look up the snapshot; a nil registry or an
unregistered name is a silent no-op (the latter with a debug log); a wrong
instrument kind is a no-op with a warning; otherwise forward to the backend
and add to the in-process running total. -/
def addToIntCounterImpl (st : RegistryState) (name : String) (value : Int) :
    RegistryState × List MetricEvent :=
  match getRegistryMap st with
  | none => (st, [])
  | some reg =>
    match reg name with
    | none => (st, [.logDebugNotRegistered name])
    | some instrument =>
      match instrument.int64Counter with
      | none => (st, [.logWarnTypeMismatch name])
      | some ref =>
          ({ st with
             localValues := fun k =>
               if k = name then st.localValues k + value else st.localValues k },
           [.backendCounterAdd ref value])

/-- `addToInt64UpDownCounterImpl`: same shape as the counter case, checking
the up-down-counter field and also updating the running total. -/
def addToInt64UpDownCounterImpl (st : RegistryState) (name : String) (value : Int) :
    RegistryState × List MetricEvent :=
  match getRegistryMap st with
  | none => (st, [])
  | some reg =>
    match reg name with
    | none => (st, [.logDebugNotRegistered name])
    | some instrument =>
      match instrument.int64UpDownCounter with
      | none => (st, [.logWarnTypeMismatch name])
      | some ref =>
          ({ st with
             localValues := fun k =>
               if k = name then st.localValues k + value else st.localValues k },
           [.backendUpDownAdd ref value])

/-- `recordInFloat64HistogramImpl`: same lookup discipline; the float sample
itself is abstracted away (only the fact of the backend call is kept), and
no running total is updated for histograms. -/
def recordInFloat64HistogramImpl (st : RegistryState) (name : String) :
    RegistryState × List MetricEvent :=
  match getRegistryMap st with
  | none => (st, [])
  | some reg =>
    match reg name with
    | none => (st, [.logDebugNotRegistered name])
    | some instrument =>
      match instrument.float64Histogram with
      | none => (st, [.logWarnTypeMismatch name])
      | some ref => (st, [.backendHistRecord ref])

/-- `GetMetricValue`: read the running total; an absent name reads 0 (the
`localValues` function already carries that default). -/
def GetMetricValue (st : RegistryState) (name : String) : Int :=
  st.localValues name

/-- `name` is registered in `st` as an Int64 counter. -/
def counterRegistered (st : RegistryState) (name : String) : Prop :=
  ∃ m : RegMap, st.registry = some m ∧
    ∃ inst ref, m name = some inst ∧ inst.int64Counter = some ref

/-- One counter add on a registered counter leaves the registry snapshot
untouched and bumps exactly the running total of that name. -/
theorem addToIntCounter_step (st : RegistryState) (name : String) (value : Int)
    (h : counterRegistered st name) :
    (addToIntCounterImpl st name value).1.registry = st.registry ∧
    GetMetricValue (addToIntCounterImpl st name value).1 name =
      GetMetricValue st name + value ∧
    (∀ k, k ≠ name →
      GetMetricValue (addToIntCounterImpl st name value).1 k = GetMetricValue st k) ∧
    counterRegistered (addToIntCounterImpl st name value).1 name := by
  obtain ⟨m, hm, inst, ref, hinst, href⟩ := h
  refine ⟨?_, ?_, ?_, ?_⟩
  · simp [addToIntCounterImpl, getRegistryMap, hm, hinst, href]
  · simp [addToIntCounterImpl, getRegistryMap, hm, hinst, href, GetMetricValue]
  · intro k hk
    simp [addToIntCounterImpl, getRegistryMap, hm, hinst, href, GetMetricValue, hk]
  · exact ⟨m, by simp [addToIntCounterImpl, getRegistryMap, hm, hinst, href],
      inst, ref, hinst, href⟩

/-- A sequence of unit counter increments, one per modelled atomic
`Add(ctx, 1)` call.  Every interleaving of N goroutines each performing M
unit increments on the same counter is, by atomicity of the accumulator,
some sequential order of N×M identical unit increments, which this function
executes. -/
def iterIncCounter (st : RegistryState) (name : String) : Nat → RegistryState
  | 0 => st
  | n + 1 => iterIncCounter (addToIntCounterImpl st name 1).1 name n

theorem iterIncCounter_total (name : String) :
    ∀ (n : Nat) (st : RegistryState), counterRegistered st name →
      GetMetricValue (iterIncCounter st name n) name =
        GetMetricValue st name + n := by
  intro n
  induction n with
  | zero => intro st _; simp [iterIncCounter]
  | succ k ih =>
      intro st h
      obtain ⟨_, hv, _, hreg⟩ := addToIntCounter_step st name 1 h
      have := ih (addToIntCounterImpl st name 1).1 hreg
      simp only [iterIncCounter, this, hv]
      push_cast
      ring

/-- C5: every Record variant is a silent, harmless no-op when the name is
absent (including the never-initialized registry) or registered with a
different instrument kind: the state (registry snapshot and running totals)
is returned unchanged, no backend call happens, and the only output is the
log line the code emits on that path — never a panic or an error. -/
theorem record_unregistered_noop (st : RegistryState) (name : String) (value : Int) :
    (st.registry = none →
      addToIntCounterImpl st name value = (st, []) ∧
      addToInt64UpDownCounterImpl st name value = (st, []) ∧
      recordInFloat64HistogramImpl st name = (st, [])) ∧
    (∀ m : RegMap, st.registry = some m → m name = none →
      addToIntCounterImpl st name value = (st, [.logDebugNotRegistered name]) ∧
      addToInt64UpDownCounterImpl st name value = (st, [.logDebugNotRegistered name]) ∧
      recordInFloat64HistogramImpl st name = (st, [.logDebugNotRegistered name])) ∧
    (∀ (m : RegMap) (inst : MetricInstrument),
      st.registry = some m → m name = some inst →
      (inst.int64Counter = none →
        addToIntCounterImpl st name value = (st, [.logWarnTypeMismatch name])) ∧
      (inst.int64UpDownCounter = none →
        addToInt64UpDownCounterImpl st name value = (st, [.logWarnTypeMismatch name])) ∧
      (inst.float64Histogram = none →
        recordInFloat64HistogramImpl st name = (st, [.logWarnTypeMismatch name]))) := by
  refine ⟨fun h => ?_, fun m hm hname => ?_, fun m inst hm hname => ?_⟩
  · simp [addToIntCounterImpl, addToInt64UpDownCounterImpl,
      recordInFloat64HistogramImpl, getRegistryMap, h]
  · simp [addToIntCounterImpl, addToInt64UpDownCounterImpl,
      recordInFloat64HistogramImpl, getRegistryMap, hm, hname]
  · refine ⟨fun hk => ?_, fun hk => ?_, fun hk => ?_⟩ <;>
      simp [addToIntCounterImpl, addToInt64UpDownCounterImpl,
        recordInFloat64HistogramImpl, getRegistryMap, hm, hname, hk]

/-- A registry fixture: a histogram registered under "h", empty totals. -/
def demoHistState : RegistryState :=
  { registry := some fun k =>
      if k = "h" then
        some { float64Histogram := some ⟨"demo histogram", "s"⟩ }
      else none,
    localValues := fun _ => 0 }

/-- A registry fixture with no snapshot ever stored. -/
def demoNilState : RegistryState :=
  { registry := none, localValues := fun _ => 0 }

/-- Witness for C5: at a nil registry, at an unregistered name, and at a
kind mismatch (a histogram hit by the counter path), the concrete calls all
return the state unchanged with only the logged line. -/
theorem record_unregistered_noop_witness :
    addToIntCounterImpl demoNilState "nope" 5 = (demoNilState, []) ∧
    addToIntCounterImpl demoHistState "nope" 5 =
      (demoHistState, [.logDebugNotRegistered "nope"]) ∧
    addToIntCounterImpl demoHistState "h" 5 =
      (demoHistState, [.logWarnTypeMismatch "h"]) := by
  refine ⟨(record_unregistered_noop demoNilState "nope" 5).1 rfl |>.1, ?_, ?_⟩
  · exact ((record_unregistered_noop demoHistState "nope" 5).2.1
      _ rfl (by simp [demoHistState])).1
  · exact (((record_unregistered_noop demoHistState "h" 5).2.2
      _ { float64Histogram := some ⟨"demo histogram", "s"⟩ } rfl
      (by simp [demoHistState])).1) rfl

/-- C6: registration is copy-on-write extension: the published snapshot maps
the registered name to the new instrument, carries every other key over
unchanged from the previous snapshot, leaves the running totals alone, and
emits exactly the overwrite warning when (and only when) the name was
already present — never a panic. -/
theorem register_copy_on_write (st : RegistryState) (name : String)
    (inst : MetricInstrument) :
    ∃ m : RegMap,
      (register st name inst).1.registry = some m ∧
      m name = some inst ∧
      (∀ k, k ≠ name → m k = regLookup st k) ∧
      (register st name inst).1.localValues = st.localValues ∧
      (register st name inst).2 =
        (if (regLookup st name).isSome then [.logWarnOverwrite name] else []) := by
  cases hr : st.registry with
  | none =>
      refine ⟨_, rfl, ?_, ?_, rfl, ?_⟩
      · simp [register, getRegistryMap, hr]
      · intro k hk; simp [register, getRegistryMap, regLookup, hr, hk]
      · simp [register, getRegistryMap, regLookup, hr]
  | some m0 =>
      refine ⟨_, rfl, ?_, ?_, rfl, ?_⟩
      · simp [register, getRegistryMap, hr]
      · intro k hk; simp [register, getRegistryMap, regLookup, hr, hk]
      · simp [register, getRegistryMap, regLookup, hr]

/-- Witness for C6: re-registering "h" on the fixture warns and installs the
newer instrument while an unrelated key is carried over. -/
theorem register_copy_on_write_witness :
    ∃ m : RegMap,
      (register demoHistState "h"
        { int64Counter := some ⟨"newer", "1"⟩ }).1.registry = some m ∧
      m "h" = some { int64Counter := some ⟨"newer", "1"⟩ } ∧
      m "other" = regLookup demoHistState "other" ∧
      (register demoHistState "h" { int64Counter := some ⟨"newer", "1"⟩ }).2 =
        [.logWarnOverwrite "h"] := by
  obtain ⟨m, h1, h2, h3, _, h5⟩ :=
    register_copy_on_write demoHistState "h" { int64Counter := some ⟨"newer", "1"⟩ }
  refine ⟨m, h1, h2, h3 "other" (by decide), ?_⟩
  rw [h5]
  simp [demoHistState, regLookup]

/-- C7: no lost updates: starting from any state where the counter is
registered, any interleaving of N goroutines each performing M atomic unit
increments — i.e. any sequential order of the N×M identical atomic adds —
leaves the in-process running total read by `GetMetricValue` exactly N×M
above its initial value, with no dependence on an exporter backend. -/
theorem counter_no_lost_updates (st : RegistryState) (name : String)
    (h : counterRegistered st name) (N M : Nat) :
    GetMetricValue (iterIncCounter st name (N * M)) name =
      GetMetricValue st name + N * M := by
  simpa using iterIncCounter_total name (N * M) st h

/-- A registry fixture: a counter registered under "c", empty totals. -/
def demoCounterState : RegistryState :=
  { registry := some fun k =>
      if k = "c" then some { int64Counter := some ⟨"demo counter", "1"⟩ }
      else none,
    localValues := fun _ => 0 }

/-- Witness for C7: 3 goroutines × 4 unit increments on the fixture counter
leave the running total at exactly 12. -/
theorem counter_no_lost_updates_witness :
    GetMetricValue (iterIncCounter demoCounterState "c" (3 * 4)) "c" =
      GetMetricValue demoCounterState "c" + 3 * 4 := by
  exact counter_no_lost_updates demoCounterState "c"
    ⟨_, rfl, { int64Counter := some ⟨"demo counter", "1"⟩ },
     ⟨"demo counter", "1"⟩, by simp, rfl⟩ 3 4

/-! ## Package-level metric globals and `InitStandardMetrics` -/

/-- The package-level mutable globals of metric_registry.go that the
registration path touches: the `registryOnce` guard, the registry state, and
whether the package-global `Meter` is nil (`o11y.Meter`, set by `Init`). -/
structure MetricsGlobals where
  registryOnceDone : Bool
  reg : RegistryState
  meterIsNil : Bool

/-- `RegisterInt64Counter`: bail out with an error log when the global Meter
is nil; otherwise create the instrument (instrument creation by the SDK is
modelled as always succeeding for the well-formed names used here; its
error branch merely logs and skips installation) and `register` it. -/
def RegisterInt64Counter (g : MetricsGlobals) (name description unit : String) :
    MetricsGlobals × List MetricEvent :=
  if g.meterIsNil then (g, [.logErrorMeterNil])
  else
    let p := register g.reg name { int64Counter := some ⟨description, unit⟩ }
    ({ g with reg := p.1 }, p.2)

/-- `RegisterFloat64Histogram`, same discipline as the counter case. -/
def RegisterFloat64Histogram (g : MetricsGlobals) (name description unit : String) :
    MetricsGlobals × List MetricEvent :=
  if g.meterIsNil then (g, [.logErrorMeterNil])
  else
    let p := register g.reg name { float64Histogram := some ⟨description, unit⟩ }
    ({ g with reg := p.1 }, p.2)

/-- `RegisterInt64UpDownCounter`, same discipline as the counter case. -/
def RegisterInt64UpDownCounter (g : MetricsGlobals) (name description unit : String) :
    MetricsGlobals × List MetricEvent :=
  if g.meterIsNil then (g, [.logErrorMeterNil])
  else
    let p := register g.reg name { int64UpDownCounter := some ⟨description, unit⟩ }
    ({ g with reg := p.1 }, p.2)

/-- The names `InitStandardMetrics` registers, in source order. -/
def standardMetricNames : List String :=
  ["http.server.request.duration",
   "http.server.request.total",
   "http.server.active_requests",
   "rpc.server.panic.total",
   "db.client.query.duration",
   "biz.operation.duration",
   "biz.operation.error.total",
   "cache.client.operation.total"]

/-- `InitStandardMetrics(meter)`: guarded by `registryOnce` so only the
first call does anything; it seeds an empty snapshot when the atomic value
was never stored, then registers the standard set.  Note the Go body never
uses its `meter` parameter — the Register helpers read the package-global
`Meter` — hence the model ignores it too. -/
def InitStandardMetrics (g : MetricsGlobals) (_meter : Option Unit) :
    MetricsGlobals × List MetricEvent :=
  if g.registryOnceDone then (g, [])
  else
    let g0 :=
      if (g.reg.registry).isNone then
        { g with reg := { g.reg with registry := some fun _ => none } }
      else g
    let p1 := RegisterFloat64Histogram g0 "http.server.request.duration"
      "Measures the duration of inbound HTTP requests." "s"
    let p2 := RegisterInt64Counter p1.1 "http.server.request.total"
      "Counts the total number of inbound HTTP requests." "\x7brequest\x7d"
    let p3 := RegisterInt64UpDownCounter p2.1 "http.server.active_requests"
      "Measures the number of concurrent inbound HTTP requests that are currently in-flight."
      "\x7brequest\x7d"
    let p4 := RegisterInt64Counter p3.1 "rpc.server.panic.total"
      "Counts the number of panics in gRPC handlers." "\x7bpanic\x7d"
    let p5 := RegisterFloat64Histogram p4.1 "db.client.query.duration"
      "Measures the duration of database queries." "s"
    let p6 := RegisterFloat64Histogram p5.1 "biz.operation.duration"
      "Measures the duration of a specific business logic operation." "s"
    let p7 := RegisterInt64Counter p6.1 "biz.operation.error.total"
      "Counts the total number of errors for a specific business logic operation."
      "\x7berror\x7d"
    let p8 := RegisterInt64Counter p7.1 "cache.client.operation.total"
      "Counts cache hits and misses." "\x7bevent\x7d"
    ({ p8.1 with registryOnceDone := true },
     p1.2 ++ p2.2 ++ p3.2 ++ p4.2 ++ p5.2 ++ p6.2 ++ p7.2 ++ p8.2)

/-- Looking up the name just registered yields the new instrument. -/
theorem regLookup_register_self (st : RegistryState) (n : String)
    (inst : MetricInstrument) :
    regLookup (register st n inst).1 n = some inst := by
  cases hr : st.registry <;> simp [register, regLookup, getRegistryMap, hr]

/-- Looking up any other name is unaffected by a registration. -/
theorem regLookup_register_ne (st : RegistryState) (n : String)
    (inst : MetricInstrument) (k : String) (h : k ≠ n) :
    regLookup (register st n inst).1 k = regLookup st k := by
  cases hr : st.registry <;> simp [register, regLookup, getRegistryMap, hr, h]

/-- C10: `InitStandardMetrics` is once-guarded: after any first invocation
the done flag is set, every later invocation (with any meter argument) is a
complete no-op returning the state unchanged, and the first invocation from
a fresh state (guard unset, global Meter non-nil) installs every standard
metric name into the registry. -/
theorem initStandardMetrics_once_only (g : MetricsGlobals) (m1 m2 : Option Unit) :
    (InitStandardMetrics g m1).1.registryOnceDone = true ∧
    InitStandardMetrics (InitStandardMetrics g m1).1 m2 =
      ((InitStandardMetrics g m1).1, []) ∧
    (g.registryOnceDone = false → g.meterIsNil = false →
      ∀ n ∈ standardMetricNames,
        (regLookup (InitStandardMetrics g m1).1.reg n).isSome = true) := by
  have hnoop : ∀ (gg : MetricsGlobals) (m : Option Unit),
      gg.registryOnceDone = true → InitStandardMetrics gg m = (gg, []) := by
    intro gg m h
    simp [InitStandardMetrics, h]
  have hdone : (InitStandardMetrics g m1).1.registryOnceDone = true := by
    by_cases h : g.registryOnceDone <;>
      simp [InitStandardMetrics, h]
  refine ⟨hdone, hnoop _ m2 hdone, ?_⟩
  intro h0 hm n hn
  simp only [standardMetricNames, List.mem_cons, List.not_mem_nil, or_false] at hn
  cases hr : g.reg.registry with
  | none =>
      rcases hn with rfl | rfl | rfl | rfl | rfl | rfl | rfl | rfl <;>
        simp [InitStandardMetrics, h0, hr, RegisterInt64Counter,
          RegisterFloat64Histogram, RegisterInt64UpDownCounter, hm,
          register, regLookup, getRegistryMap]
  | some m0 =>
      rcases hn with rfl | rfl | rfl | rfl | rfl | rfl | rfl | rfl <;>
        simp [InitStandardMetrics, h0, hr, RegisterInt64Counter,
          RegisterFloat64Histogram, RegisterInt64UpDownCounter, hm,
          register, regLookup, getRegistryMap]

/-- A fresh metrics-globals fixture: guard unset, no snapshot, Meter set. -/
def demoFreshGlobals : MetricsGlobals :=
  { registryOnceDone := false, reg := demoNilState, meterIsNil := false }

/-- Witness for C10: from the fresh fixture the first call installs the
standard set (checked on one standard name) and the second call is exactly
a no-op. -/
theorem initStandardMetrics_once_only_witness :
    (regLookup (InitStandardMetrics demoFreshGlobals none).1.reg
      "biz.operation.duration").isSome = true ∧
    InitStandardMetrics (InitStandardMetrics demoFreshGlobals none).1 none =
      ((InitStandardMetrics demoFreshGlobals none).1, []) := by
  obtain ⟨h1, h2, h3⟩ := initStandardMetrics_once_only demoFreshGlobals none none
  exact ⟨h3 rfl rfl _ (by simp [standardMetricNames]), h2⟩

/-! ## Baggage (`State.SetBaggage`, o11y.go)

The OpenTelemetry baggage package is an external collaborator; its contract
(W3C baggage: keys are HTTP tokens, values are baggage-octet strings,
`Baggage` is an immutable key-keyed set updated functionally) is modelled
below; `SetBaggage` itself is translated from the source. -/

/-- HTTP token characters (the collaborator's key charset): letters, digits
and the token punctuation, given by code point to keep the set explicit. -/
def tokenChar (c : Char) : Bool :=
  c.isAlphanum ||
    [33, 35, 36, 37, 38, 39, 42, 43, 45, 46, 94, 95, 96, 124, 126].contains c.toNat

/-- A valid baggage key: a non-empty token. -/
def validKey (k : String) : Bool :=
  k.length != 0 && k.toList.all tokenChar

/-- Valid baggage value characters: the printable range minus the W3C
baggage-octet exclusions (space, double quote, comma, semicolon,
backslash). -/
def valueChar (c : Char) : Bool :=
  let n := c.toNat
  n == 0x21 || (Nat.ble 0x23 n && Nat.ble n 0x2B) ||
    (Nat.ble 0x2D n && Nat.ble n 0x3A) || (Nat.ble 0x3C n && Nat.ble n 0x5B) ||
    (Nat.ble 0x5D n && Nat.ble n 0x7E)

/-- A valid baggage value. -/
def validValue (v : String) : Bool :=
  v.toList.all valueChar

/-- A baggage list member. -/
structure Member where
  key : String
  value : String
deriving DecidableEq, Repr

/-- `baggage.NewMember`: validates and builds a member, erring (modelled as
`none`) on an invalid key or value. -/
def NewMember (key value : String) : Option Member :=
  if validKey key && validValue value then some ⟨key, value⟩ else none

/-- Baggage: a key-keyed member set. -/
abbrev Baggage := List Member

/-- Baggage lookup by key (`Baggage.Member(key).Value()`). -/
def baggageLookup (b : Baggage) (k : String) : Option String :=
  (b.find? fun m => m.key == k).map Member.value

/-- `Baggage.SetMember`: rejects the zero-value member, otherwise returns a
new baggage with the member replacing any previous member of the same key;
the receiver is untouched (functional update). -/
def Baggage.setMember (b : Baggage) (m : Member) : Option Baggage :=
  if m.key == "" then none
  else some ((b.filter fun x => !(x.key == m.key)) ++ [m])

/-- A Go context, restricted to the data the claim concerns: its baggage. -/
structure Context where
  baggage : Baggage
deriving DecidableEq, Repr

def baggageFromContext (ctx : Context) : Baggage :=
  ctx.baggage

def contextWithBaggage (ctx : Context) (b : Baggage) : Context :=
  { ctx with baggage := b }

/-- Log lines `State.SetBaggage` can emit. -/
inductive BaggageLog
  | warnCreateMember (key : String)
  | warnSetMember (key : String)
deriving DecidableEq, Repr

/-- `State.SetBaggage` (o11y.go): build a member — on failure warn and
return the original context; set it into the context baggage — on failure
warn and return the original context; otherwise return a new context with
the updated baggage.  No error is ever returned. -/
def SetBaggage (ctx : Context) (key value : String) : Context × List BaggageLog :=
  match NewMember key value with
  | none => (ctx, [.warnCreateMember key])
  | some m =>
    match (baggageFromContext ctx).setMember m with
    | none => (ctx, [.warnSetMember key])
    | some b => (contextWithBaggage ctx b, [])

/-- Unfolding baggage lookup one member at a time. -/
theorem baggageLookup_cons (y : Member) (l : Baggage) (k : String) :
    baggageLookup (y :: l) k =
      if y.key == k then some y.value else baggageLookup l k := by
  cases hy : y.key == k <;> simp [baggageLookup, List.find?, hy]

/-- Setting a member makes its key resolve to its value. -/
theorem baggageLookup_set_self (b : Baggage) (key value : String) :
    baggageLookup ((b.filter fun x => !(x.key == key)) ++ [⟨key, value⟩]) key =
      some value := by
  induction b with
  | nil => simp [baggageLookup, List.find?]
  | cons x xs ih =>
      cases hx : x.key == key with
      | true =>
          rw [List.filter_cons_of_neg (by simp [hx])]
          exact ih
      | false =>
          have hcond : ¬((x.key == key) = true) := by simp [hx]
          rw [List.filter_cons_of_pos (by simp [hx]), List.cons_append,
            baggageLookup_cons, if_neg hcond]
          exact ih

/-- Setting a member leaves every other key resolving as before. -/
theorem baggageLookup_set_other (b : Baggage) (key value k : String)
    (h : k ≠ key) :
    baggageLookup ((b.filter fun x => !(x.key == key)) ++ [⟨key, value⟩]) k =
      baggageLookup b k := by
  have hne : (key == k) = false := by
    rw [beq_eq_false_iff_ne]
    exact Ne.symm h
  induction b with
  | nil => simp [baggageLookup, List.find?, hne]
  | cons x xs ih =>
      cases hx : x.key == key with
      | true =>
          have hxk : ¬((x.key == k) = true) := by
            simp only [beq_iff_eq]
            intro hc
            exact h (hc.symm.trans (beq_iff_eq.mp hx))
          rw [List.filter_cons_of_neg (by simp [hx]), baggageLookup_cons x xs k,
            if_neg hxk]
          exact ih
      | false =>
          rw [List.filter_cons_of_pos (by simp [hx]), List.cons_append,
            baggageLookup_cons, baggageLookup_cons, ih]

/-- A valid key is non-empty, so the member it builds is never the
zero-value member `SetMember` rejects. -/
theorem validKey_ne_empty (key : String) (h : validKey key = true) :
    (key == "") = false := by
  cases hk : key == "" with
  | false => rfl
  | true =>
      have : key = "" := beq_iff_eq.mp hk
      subst this
      simp [validKey] at h

/-- C8: `SetBaggage` is fail-soft and functional: with a valid key and
value it returns a fresh context whose baggage resolves the key to the
value and agrees with the original baggage on every other key, emitting no
warning, while the original context value is untouched; with an invalid key
or value it returns the original context itself together with a warning —
in neither case an error. -/
theorem setBaggage_fail_soft (ctx : Context) (key value : String) :
    (∀ m, NewMember key value = some m →
      baggageLookup (SetBaggage ctx key value).1.baggage key = some value ∧
      (∀ k, k ≠ key →
        baggageLookup (SetBaggage ctx key value).1.baggage k =
          baggageLookup ctx.baggage k) ∧
      (SetBaggage ctx key value).2 = []) ∧
    (NewMember key value = none →
      SetBaggage ctx key value = (ctx, [.warnCreateMember key])) := by
  constructor
  · intro m hm
    have hv : (validKey key && validValue value) = true := by
      by_contra hc
      simp [NewMember, hc] at hm
    have hk : validKey key = true := (Bool.and_eq_true_iff.mp hv).1
    have hm2 : m = ⟨key, value⟩ := by
      simp [NewMember, hv] at hm
      exact hm.symm
    subst hm2
    have hne := validKey_ne_empty key hk
    simp only [SetBaggage, NewMember, hv, if_true, baggageFromContext,
      Baggage.setMember, hne, Bool.false_eq_true, if_false,
      contextWithBaggage]
    refine ⟨baggageLookup_set_self ctx.baggage key value,
      fun k hk2 => baggageLookup_set_other ctx.baggage key value k hk2, trivial⟩
  · intro hm
    simp [SetBaggage, hm]

/-- Witness for C8: the spec scenario — setting tenant-id baggage on an
empty context yields a context resolving it, the original still resolves to
nothing, and a key with a space is rejected fail-soft. -/
theorem setBaggage_fail_soft_witness :
    baggageLookup (SetBaggage ⟨[]⟩ "tenant_id" "1001").1.baggage "tenant_id" =
      some "1001" ∧
    baggageLookup (⟨[]⟩ : Context).baggage "tenant_id" = none ∧
    SetBaggage ⟨[]⟩ "bad key" "1001" =
      (⟨[]⟩, [.warnCreateMember "bad key"]) := by
  refine ⟨?_, rfl, ?_⟩
  · exact ((setBaggage_fail_soft ⟨[]⟩ "tenant_id" "1001").1
      ⟨"tenant_id", "1001"⟩ (by decide)).1
  · exact (setBaggage_fail_soft ⟨[]⟩ "bad key" "1001").2 (by decide)

/-! ## Provider construction (`New`, provider.go) -/

/-- Lifecycle calls `New` can make during a failed startup, in call order:
the rollback shutdowns of the already-initialized subsystems. -/
inductive LifeEvent
  | traceShutdownCalled
  | logShutdownCalled
deriving DecidableEq, Repr

/-- The provider value `New` returns on success; `noop` marks the
disabled-switch fast path (no-op tracer, meter, discarding logger). -/
structure ProviderModel where
  noop : Bool
deriving DecidableEq, Repr

/-- `New` (provider.go), parametrized — as the Go function is, through its
`setupTracing`/`setupMetrics` arguments — by the outcome of each setup step
(`none` = success; logging setup cannot fail by its signature, and the
resource merge is an external SDK call modelled as succeeding).  If tracing
setup fails, logging is rolled back and the error returned; if metrics
setup fails, tracing then logging are rolled back in that order and the
error returned; on the disabled switch a no-op provider is returned at
once. -/
def New (enabled : Bool) (tracingErr metricsErr : Option Err) :
    Except Err ProviderModel × List LifeEvent :=
  if enabled = false then
    (.ok { noop := true }, [])
  else
    match tracingErr with
    | some e => (.error e, [.logShutdownCalled])
    | none =>
      match metricsErr with
      | some e => (.error e, [.traceShutdownCalled, .logShutdownCalled])
      | none => (.ok { noop := false }, [])

/-- C9: with the enabled switch on, a metrics-setup failure makes `New`
invoke the tracing shutdown and then the logging shutdown, in that order,
and return exactly the metrics error with no provider; a tracing-setup
failure invokes only the logging shutdown and returns that error. -/
theorem new_rollback_on_failure (e : Err) (metricsErr : Option Err) :
    New true none (some e) =
      (.error e, [.traceShutdownCalled, .logShutdownCalled]) ∧
    New true (some e) metricsErr = (.error e, [.logShutdownCalled]) := by
  exact ⟨rfl, rfl⟩
